import Mathlib

/-!
# Gdev over PSCNV: resource lifecycle of `driver/pscnv/pscnv_gdev.c`

A shallow embedding of the Gdev driver glue for the PSCNV backend.  The C
functions are state transformers over an explicit `World`: the resources
that are live in the backend and in the kernel, and the chronological log of
the calls made into them.  What a backend call answers (a handle, `NULL`, an
error code) is not decided by this file, so every function takes these answers
in an environment record and is verified for all of them.

Pointers are `Option Nat` (`none` is `NULL`); a pointer that the C code
dereferences without a test is a plain `Nat`.
-/

namespace Gdev

/-! ## Constants that the included headers define -/

/-- Constants that `pscnv_gdev.c` takes from headers outside this unit
(`gdev_conf.h`, `gdev_drv.h`, `pscnv_gem.h`, `pscnv_ioctl.h`, the kernel's
`page.h`).  Their values are not fixed here: they are parameters of every
definition that uses them. -/
structure Params where
  PAGE_SHIFT : Nat
  PSCNV_GEM_SYSRAM_SNOOP : Nat
  PSCNV_GEM_VRAM_SMALL : Nat
  GDEV_FENCE_COUNT : Nat
  GDEV_QUERY_NVIDIA_MP_COUNT : Nat
  PSCNV_GETPARAM_MP_COUNT : Nat
  deriving DecidableEq, Repr

/-- The kernel's `PAGE_SIZE`, which is `1UL << PAGE_SHIFT`. -/
def PAGE_SIZE (P : Params) : Nat := 1 <<< P.PAGE_SHIFT

/-- The errno value `EINVAL`. -/
def EINVAL : Int := 22

/-! ## Backend state -/

/-- What is live below this layer.  Every list holds the handles that are
currently held, most recent first; `faults` counts the releases of something
that was not live (a double free, an unmap of an address that is not mapped). -/
structure Resources where
  /-- objects obtained from `kzalloc` -/
  heap : List Nat
  /-- references to backend address-range objects (`pscnv_vspace`) -/
  vspaces : List Nat
  /-- references to backend channels (`pscnv_chan`) -/
  chans : List Nat
  /-- live buffer objects (`pscnv_bo`) -/
  bos : List Nat
  /-- live VAS mappings: (vspace, GPU start address) -/
  vas_maps : List (Nat × Nat)
  /-- live multi-page CPU mappings, by the address `vmap` returned -/
  vmaps : List Nat
  /-- live single-page CPU mappings, by the page given to `kmap` -/
  kmaps : List Nat
  faults : Nat
  deriving DecidableEq, Repr

/-- One call into the backend or the kernel, with its arguments. -/
inductive Call where
  | kzalloc
  | kfree (p : Nat)
  | pscnv_vspace_new (size : Nat)
  | pscnv_vspace_unref (vspace : Nat)
  | pscnv_chan_new (vspace : Nat)
  | pscnv_chan_unref (chan : Nat)
  | pscnv_mem_alloc (size flags : Nat)
  | pscnv_mem_free (bo : Nat)
  | pscnv_vspace_map (vspace bo : Nat)
  | pscnv_vspace_unmap (vspace addr : Nat)
  | vmap (pages count : Nat)
  | vunmap (addr : Option Nat)
  | kmap (page : Nat)
  | kunmap (page : Nat)
  | chan_init_ib (chan ib_base ib_order : Nat)
  | nvc0_fifo_ctrl_ptr (chan : Nat)
  | compute_init (ctx : Nat)
  | nvc0_compute_setup (gdev : Nat)
  | pscnv_ioctl_getparam (param : Nat)
  deriving DecidableEq, Repr

/-- The state the C functions run in. -/
structure World where
  res : Resources
  /-- calls made so far, oldest first -/
  log : List Call
  deriving DecidableEq, Repr

/-- Number of live buffer objects. -/
def World.nBos (w : World) : Nat := w.res.bos.length
/-- Number of live VAS mappings. -/
def World.nVasMaps (w : World) : Nat := w.res.vas_maps.length
/-- Number of live CPU mappings, `vmap` and `kmap` together. -/
def World.nCpuMaps (w : World) : Nat := w.res.vmaps.length + w.res.kmaps.length
/-- Number of channel references held. -/
def World.nChanRefs (w : World) : Nat := w.res.chans.length

/-- Appends a call to the log. -/
def record (c : Call) (w : World) : World := { w with log := w.log ++ [c] }

/-! ## Data model of the unit -/

/-- A backend buffer object as far as this unit reads it: its identity, the
`size` the backend recorded and its page array (`pages` names page 0). -/
structure pscnv_bo where
  handle : Nat
  size : Nat
  pages : Nat
  deriving DecidableEq, Repr

/-- A node of Gdev's intrusive list (`gdev_list.h` is outside this unit).  The
ring of neighbours is kept as the sequence of containers linked behind the
node; `container` is the object the node belongs to. -/
structure gdev_list where
  members : List Nat
  container : Option Nat
  deriving DecidableEq, Repr

/-- A device entry: `chipset` is `gdev->drm->dev_private->chipset`. -/
structure gdev_device_t where
  id : Nat
  use : Int
  chipset : Nat
  deriving DecidableEq, Repr

structure gdev_vas_t where
  self : Nat
  gdev : gdev_device_t
  pvas : Nat
  memlist : gdev_list
  deriving DecidableEq, Repr

structure gdev_mem_t where
  self : Nat
  vas : gdev_vas_t
  bo : pscnv_bo
  addr : Nat
  map : Option Nat
  list_entry : gdev_list
  deriving DecidableEq, Repr

structure gdev_fifo where
  regs : Option Nat
  ib_bo : Option pscnv_bo
  ib_map : Option Nat
  ib_order : Nat
  ib_base : Nat
  ib_mask : Nat
  ib_put : Nat
  ib_get : Nat
  pb_bo : Option pscnv_bo
  pb_map : Option Nat
  pb_order : Nat
  pb_base : Nat
  pb_mask : Nat
  pb_size : Nat
  pb_pos : Nat
  pb_put : Nat
  pb_get : Nat
  deriving DecidableEq, Repr

structure gdev_fence where
  bo : Option pscnv_bo
  map : Option Nat
  addr : Nat
  sequence : List Nat
  deriving DecidableEq, Repr

structure gdev_ctx_t where
  self : Nat
  vas : Option gdev_vas_t
  pctx : Option Nat
  fifo : gdev_fifo
  fence : gdev_fence
  deriving DecidableEq, Repr

/-- A context as `kzalloc` hands it out at address `p`: every field zero,
the fence array with its `GDEV_FENCE_COUNT` slots. -/
def gdev_ctx_t.zeroed (P : Params) (p : Nat) : gdev_ctx_t :=
  { self := p, vas := none, pctx := none,
    fifo := { regs := none, ib_bo := none, ib_map := none, ib_order := 0, ib_base := 0,
              ib_mask := 0, ib_put := 0, ib_get := 0, pb_bo := none, pb_map := none,
              pb_order := 0, pb_base := 0, pb_mask := 0, pb_size := 0, pb_pos := 0,
              pb_put := 0, pb_get := 0 },
    fence := { bo := none, map := none, addr := 0,
               sequence := List.replicate P.GDEV_FENCE_COUNT 0 } }

/-! ## The calls below this layer

Each takes the answer `r` of the callee and does the bookkeeping. -/

/-- Kernel `kzalloc`: `r` is the address returned, `none` when out of memory. -/
def kzalloc (r : Option Nat) (w : World) : Option Nat × World :=
  let w := record .kzalloc w
  match r with
  | none => (none, w)
  | some p => (some p, { w with res := { w.res with heap := p :: w.res.heap } })

/-- Kernel `kfree`. -/
def kfree (p : Nat) (w : World) : World :=
  let w := record (.kfree p) w
  if p ∈ w.res.heap then { w with res := { w.res with heap := w.res.heap.erase p } }
  else { w with res := { w.res with faults := w.res.faults + 1 } }

/-- Modelled from the spec: `pscnv_vspace_new` (pscnv_vm.c, not under src/)
creates a backend address-range object of the requested size, or fails. -/
def pscnv_vspace_new (r : Option Nat) (size : Nat) (w : World) : Option Nat × World :=
  let w := record (.pscnv_vspace_new size) w
  match r with
  | none => (none, w)
  | some v => (some v, { w with res := { w.res with vspaces := v :: w.res.vspaces } })

/-- Modelled from the spec: `pscnv_vspace_unref` (not under src/) drops one
reference to the backend address-range object. -/
def pscnv_vspace_unref (v : Nat) (w : World) : World :=
  let w := record (.pscnv_vspace_unref v) w
  if v ∈ w.res.vspaces then { w with res := { w.res with vspaces := w.res.vspaces.erase v } }
  else { w with res := { w.res with faults := w.res.faults + 1 } }

/-- Modelled from the spec: `pscnv_chan_new` (pscnv_chan.c, not under src/),
the spec's `createChannel(vas) -> channelHandle`; the caller holds one
reference to the channel returned. -/
def pscnv_chan_new (r : Option Nat) (vspace : Nat) (w : World) : Option Nat × World :=
  let w := record (.pscnv_chan_new vspace) w
  match r with
  | none => (none, w)
  | some c => (some c, { w with res := { w.res with chans := c :: w.res.chans } })

/-- Modelled from the spec: `pscnv_chan_unref` (not under src/), the spec's
`destroyChannel(channelHandle)`: drops one reference. -/
def pscnv_chan_unref (c : Nat) (w : World) : World :=
  let w := record (.pscnv_chan_unref c) w
  if c ∈ w.res.chans then { w with res := { w.res with chans := w.res.chans.erase c } }
  else { w with res := { w.res with faults := w.res.faults + 1 } }

/-- Modelled from the spec: `pscnv_mem_alloc` (pscnv_mem.c, not under src/),
the spec's `allocateBuffer(size, domainFlags) -> bufferHandle`. -/
def pscnv_mem_alloc (r : Option pscnv_bo) (size flags : Nat) (w : World) :
    Option pscnv_bo × World :=
  let w := record (.pscnv_mem_alloc size flags) w
  match r with
  | none => (none, w)
  | some bo => (some bo, { w with res := { w.res with bos := bo.handle :: w.res.bos } })

/-- Modelled from the spec: `pscnv_mem_free` (not under src/), the spec's
`freeBuffer(bufferHandle)`. -/
def pscnv_mem_free (bo : pscnv_bo) (w : World) : World :=
  let w := record (.pscnv_mem_free bo.handle) w
  if bo.handle ∈ w.res.bos then
    { w with res := { w.res with bos := w.res.bos.erase bo.handle } }
  else { w with res := { w.res with faults := w.res.faults + 1 } }

/-- Modelled from the spec: `pscnv_vspace_map` (pscnv_vm.c, not under src/),
the spec's `mapIntoRange(vas, bufferHandle, range) -> {gpuAddress}`.  The answer
`none` is a non-zero return code; `some a` is return code 0 with `mm->start = a`. -/
def pscnv_vspace_map (r : Option Nat) (vspace : Nat) (bo : pscnv_bo) (w : World) :
    Option Nat × World :=
  let w := record (.pscnv_vspace_map vspace bo.handle) w
  match r with
  | none => (none, w)
  | some a => (some a, { w with res := { w.res with vas_maps := (vspace, a) :: w.res.vas_maps } })

/-- Modelled from the spec: `pscnv_vspace_unmap` (not under src/), the spec's
`unmap(vas, gpuAddress)`. -/
def pscnv_vspace_unmap (vspace addr : Nat) (w : World) : World :=
  let w := record (.pscnv_vspace_unmap vspace addr) w
  if (vspace, addr) ∈ w.res.vas_maps then
    { w with res := { w.res with vas_maps := w.res.vas_maps.erase (vspace, addr) } }
  else { w with res := { w.res with faults := w.res.faults + 1 } }

/-- Kernel `vmap`, the multi-page mapping primitive: returns the address of the
mapping, or `NULL` when it cannot be established. -/
def vmap (r : Option Nat) (pages count : Nat) (w : World) : Option Nat × World :=
  let w := record (.vmap pages count) w
  match r with
  | none => (none, w)
  | some a => (some a, { w with res := { w.res with vmaps := a :: w.res.vmaps } })

/-- Kernel `vunmap`: does nothing for `NULL`. -/
def vunmap (addr : Option Nat) (w : World) : World :=
  let w := record (.vunmap addr) w
  match addr with
  | none => w
  | some a =>
    if a ∈ w.res.vmaps then { w with res := { w.res with vmaps := w.res.vmaps.erase a } }
    else { w with res := { w.res with faults := w.res.faults + 1 } }

/-- Kernel `kmap`, the single-page mapping primitive: maps `page` and returns
the address `r`; it has no failure return. -/
def kmap (r : Nat) (page : Nat) (w : World) : Option Nat × World :=
  let w := record (.kmap page) w
  (some r, { w with res := { w.res with kmaps := page :: w.res.kmaps } })

/-- Kernel `kunmap`: takes the page that was mapped. -/
def kunmap (page : Nat) (w : World) : World :=
  let w := record (.kunmap page) w
  if page ∈ w.res.kmaps then { w with res := { w.res with kmaps := w.res.kmaps.erase page } }
  else { w with res := { w.res with faults := w.res.faults + 1 } }

/-- Modelled from the spec: the `chan_init_ib` hook of the FIFO engine (not
under src/), the spec's `registerFifo(channel, base, order) -> Status`; `r` is
its return code, 0 for success. -/
def chan_init_ib (r : Int) (chan ib_base ib_order : Nat) (w : World) : Int × World :=
  (r, record (.chan_init_ib chan ib_base ib_order) w)

/-- Modelled from the spec: `nvc0_fifo_ctrl_ptr` (declared `extern`, not under
src/), the spec's `getFifoRegisters(channel) -> registerView`, a non-owning view. -/
def nvc0_fifo_ctrl_ptr (r : Option Nat) (chan : Nat) (w : World) : Option Nat × World :=
  (r, record (.nvc0_fifo_ctrl_ptr chan) w)

/-- Modelled from the spec: the `init` hook of the compute-engine backend
(`gdev->compute->init`, not under src/), the spec's `perContextInit(context)`. -/
def compute_init (ctx : Nat) (w : World) : World := record (.compute_init ctx) w

/-- Modelled from the spec: `nvc0_compute_setup` (not under src/), the
one-time device initialisation of the 0xC0 compute-engine backend. -/
def nvc0_compute_setup (gdev : Nat) (w : World) : World := record (.nvc0_compute_setup gdev) w

/-- The request block of the backend's parameter query, as far as this unit
uses it: the parameter asked for and the place for its value. -/
structure drm_pscnv_getparam where
  param : Nat
  value : Nat
  deriving DecidableEq, Repr

/-- The outcomes of the backend's parameter query. -/
inductive GetparamAnswer where
  | value (v : Nat)
  | invalidParameter
  | unsupportedHardware
  deriving DecidableEq, Repr

/-- Modelled from the spec: `pscnv_ioctl_getparam` (pscnv_ioctl.c, not under
src/), the spec's `query(device, parameterId) -> value | InvalidParameter |
UnsupportedHardware`.  With a value it stores the value in the request and
returns 0; with a failure it returns a negative error code and leaves the
request as it found it. -/
def pscnv_ioctl_getparam (r : GetparamAnswer) (getparam : drm_pscnv_getparam) (w : World) :
    Int × drm_pscnv_getparam × World :=
  let w := record (.pscnv_ioctl_getparam getparam.param) w
  match r with
  | .value v => (0, { getparam with value := v }, w)
  | .invalidParameter => (-EINVAL, getparam, w)
  | .unsupportedHardware => (-EINVAL, getparam, w)

/-! ## Execution contexts: `gdev_ctx_new` and `gdev_ctx_free` -/

/-- What the callees of one `gdev_ctx_new` call answer, in call order. -/
structure CtxAnswers where
  /-- `kzalloc(sizeof(*ctx))` -/
  ctx : Option Nat
  /-- `pscnv_chan_new` -/
  chan : Option Nat
  /-- `pscnv_mem_alloc` for the indirect buffer -/
  ib_bo : Option pscnv_bo
  /-- `pscnv_vspace_map` for the indirect buffer -/
  ib_mm : Option Nat
  /-- `vmap` for the indirect buffer -/
  ib_map : Option Nat
  /-- `pscnv_mem_alloc` for the push buffer -/
  pb_bo : Option pscnv_bo
  /-- `pscnv_vspace_map` for the push buffer -/
  pb_mm : Option Nat
  /-- `vmap` for the push buffer -/
  pb_map : Option Nat
  /-- return code of `priv->fifo->chan_init_ib` -/
  fifo_init : Int
  /-- `nvc0_fifo_ctrl_ptr` -/
  regs : Option Nat
  /-- `pscnv_mem_alloc` for the fence page -/
  fence_bo : Option pscnv_bo
  /-- `pscnv_vspace_map` for the fence page -/
  fence_mm : Option Nat
  /-- `kmap` for the fence page -/
  fence_map : Nat
  /-- whether the backend's `compute->init` hook did its work -/
  init_ok : Bool
  deriving DecidableEq, Repr

/-- The loop `for (i = 0; i < GDEV_FENCE_COUNT; i++) ctx->fence.sequence[i] = 0;`. -/
def fence_sequence_clear (count : Nat) (sequence : List Nat) : List Nat :=
  (List.range count).foldl (fun s i => s.set i 0) sequence

/-- Label `fail_ctx`. -/
def fail_ctx (w : World) : Option gdev_ctx_t × World := (none, w)

/-- Label `fail_chan`: `kfree(ctx)`. -/
def fail_chan (ctx : gdev_ctx_t) (w : World) : Option gdev_ctx_t × World :=
  fail_ctx (kfree ctx.self w)

/-- Label `fail_ib`: `pscnv_chan_unref(chan)`. -/
def fail_ib (ctx : gdev_ctx_t) (chan : Nat) (w : World) : Option gdev_ctx_t × World :=
  fail_chan ctx (pscnv_chan_unref chan w)

/-- Label `fail_ibmap`: `pscnv_mem_free(ib_bo)`. -/
def fail_ibmap (ctx : gdev_ctx_t) (chan : Nat) (ib_bo : pscnv_bo) (w : World) :
    Option gdev_ctx_t × World :=
  fail_ib ctx chan (pscnv_mem_free ib_bo w)

/-- Label `fail_pb`: `vunmap(ctx->fifo.ib_map); pscnv_vspace_unmap(vspace, ib_mm->start)`. -/
def fail_pb (ctx : gdev_ctx_t) (chan vspace : Nat) (ib_bo : pscnv_bo) (ib_mm : Nat)
    (w : World) : Option gdev_ctx_t × World :=
  fail_ibmap ctx chan ib_bo (pscnv_vspace_unmap vspace ib_mm (vunmap ctx.fifo.ib_map w))

/-- Label `fail_pbmap`: `pscnv_mem_free(pb_bo)`. -/
def fail_pbmap (ctx : gdev_ctx_t) (chan vspace : Nat) (ib_bo : pscnv_bo) (ib_mm : Nat)
    (pb_bo : pscnv_bo) (w : World) : Option gdev_ctx_t × World :=
  fail_pb ctx chan vspace ib_bo ib_mm (pscnv_mem_free pb_bo w)

/-- Labels `fail_fence_alloc`, `fail_fifo_reg` and `fail_fifo_init`, which are one
place: `vunmap(ctx->fifo.pb_map); pscnv_vspace_unmap(vspace, pb_mm->start)`. -/
def fail_fifo_init (ctx : gdev_ctx_t) (chan vspace : Nat) (ib_bo : pscnv_bo) (ib_mm : Nat)
    (pb_bo : pscnv_bo) (pb_mm : Nat) (w : World) : Option gdev_ctx_t × World :=
  fail_pbmap ctx chan vspace ib_bo ib_mm pb_bo
    (pscnv_vspace_unmap vspace pb_mm (vunmap ctx.fifo.pb_map w))

/-- Label `fail_fence_map`: `pscnv_mem_free(fence_bo)`. -/
def fail_fence_map (ctx : gdev_ctx_t) (chan vspace : Nat) (ib_bo : pscnv_bo) (ib_mm : Nat)
    (pb_bo : pscnv_bo) (pb_mm : Nat) (fence_bo : pscnv_bo) (w : World) :
    Option gdev_ctx_t × World :=
  fail_fifo_init ctx chan vspace ib_bo ib_mm pb_bo pb_mm (pscnv_mem_free fence_bo w)

/-- The C function `gdev_ctx_new`: create a new GPU context object.  The result
is the context, or `none` for `NULL`, and the world the call leaves. -/
def gdev_ctx_new (P : Params) (E : CtxAnswers) (gdev : gdev_device_t) (vas : gdev_vas_t)
    (w : World) : Option gdev_ctx_t × World :=
  let chipset := gdev.chipset
  let vspace := vas.pvas
  match kzalloc E.ctx w with
  | (none, w) => fail_ctx w
  | (some p, w) =>
  let ctx := gdev_ctx_t.zeroed P p
  match pscnv_chan_new E.chan vspace w with
  | (none, w) => fail_chan ctx w
  | (some chan, w) =>
  -- `if ((chipset & 0xf0) != 0xc0) { /* TODO: set up vdma here! */ }`: an empty body
  let w := if chipset &&& 0xf0 ≠ 0xc0 then w else w
  -- FIFO indirect buffer setup
  let ctx := { ctx with fifo := { ctx.fifo with ib_order := 9 } }
  match pscnv_mem_alloc E.ib_bo (8 <<< ctx.fifo.ib_order) P.PSCNV_GEM_SYSRAM_SNOOP w with
  | (none, w) => fail_ib ctx chan w
  | (some ib_bo, w) =>
  match pscnv_vspace_map E.ib_mm vspace ib_bo w with
  | (none, w) => fail_ibmap ctx chan ib_bo w
  | (some ib_mm, w) =>
  let (ib_map, w) := vmap E.ib_map ib_bo.pages (ib_bo.size >>> P.PAGE_SHIFT) w
  let ctx := { ctx with fifo := { ctx.fifo with
    ib_map := ib_map, ib_bo := some ib_bo, ib_base := ib_mm,
    ib_mask := (1 <<< ctx.fifo.ib_order) - 1, ib_put := 0, ib_get := 0 } }
  -- FIFO push buffer setup
  let ctx := { ctx with fifo := { ctx.fifo with pb_order := 20 } }
  match pscnv_mem_alloc E.pb_bo (1 <<< ctx.fifo.pb_order) P.PSCNV_GEM_SYSRAM_SNOOP w with
  | (none, w) => fail_pb ctx chan vspace ib_bo ib_mm w
  | (some pb_bo, w) =>
  match pscnv_vspace_map E.pb_mm vspace pb_bo w with
  | (none, w) => fail_pbmap ctx chan vspace ib_bo ib_mm pb_bo w
  | (some pb_mm, w) =>
  let (pb_map, w) := vmap E.pb_map pb_bo.pages (pb_bo.size >>> P.PAGE_SHIFT) w
  let ctx := { ctx with fifo := { ctx.fifo with
    pb_map := pb_map, pb_bo := some pb_bo, pb_base := pb_mm,
    pb_mask := (1 <<< ctx.fifo.pb_order) - 1, pb_size := 1 <<< ctx.fifo.pb_order,
    pb_pos := 0, pb_put := 0, pb_get := 0 } }
  -- FIFO init
  let (ret, w) := chan_init_ib E.fifo_init chan ctx.fifo.ib_base ctx.fifo.ib_order w
  if ret ≠ 0 then fail_fifo_init ctx chan vspace ib_bo ib_mm pb_bo pb_mm w else
  -- FIFO command queue registers: `switch (chipset & 0xf0)`
  if chipset &&& 0xf0 ≠ 0xc0 then fail_fifo_init ctx chan vspace ib_bo ib_mm pb_bo pb_mm w else
  let (regs, w) := nvc0_fifo_ctrl_ptr E.regs chan w
  let ctx := { ctx with fifo := { ctx.fifo with regs := regs } }
  -- fences init
  match pscnv_mem_alloc E.fence_bo (PAGE_SIZE P) P.PSCNV_GEM_SYSRAM_SNOOP w with
  | (none, w) => fail_fifo_init ctx chan vspace ib_bo ib_mm pb_bo pb_mm w
  | (some fence_bo, w) =>
  match pscnv_vspace_map E.fence_mm vspace fence_bo w with
  | (none, w) => fail_fence_map ctx chan vspace ib_bo ib_mm pb_bo pb_mm fence_bo w
  | (some fence_mm, w) =>
  let (fence_map, w) := kmap E.fence_map fence_bo.pages w
  let ctx := { ctx with fence := { ctx.fence with
    bo := some fence_bo, map := fence_map, addr := fence_mm,
    sequence := fence_sequence_clear P.GDEV_FENCE_COUNT ctx.fence.sequence } }
  let ctx := { ctx with vas := some vas, pctx := some chan }
  -- initialize the channel: `compute->init(ctx);`, whose outcome is not looked at
  let w := compute_init ctx.self w
  (some ctx, w)

/-- The C function `gdev_ctx_free`: destroy the specified GPU context object.
`none` stands for the dereference of a `NULL` field of `ctx`. -/
def gdev_ctx_free (ctx : gdev_ctx_t) (w : World) : Option World := do
  let vas ← ctx.vas
  let vspace := vas.pvas
  let chan ← ctx.pctx
  let fence_bo ← ctx.fence.bo
  let w := kunmap fence_bo.pages w
  let w := pscnv_vspace_unmap vspace ctx.fence.addr w
  let w := pscnv_mem_free fence_bo w
  let w := vunmap ctx.fifo.pb_map w
  let w := pscnv_vspace_unmap vspace ctx.fifo.pb_base w
  let w := pscnv_mem_free (← ctx.fifo.pb_bo) w
  let w := vunmap ctx.fifo.ib_map w
  let w := pscnv_vspace_unmap vspace ctx.fifo.ib_base w
  let w := pscnv_mem_free (← ctx.fifo.ib_bo) w
  let w := pscnv_chan_unref chan w
  let w := kfree ctx.self w
  pure w

/-! ## Memory objects -/

/-- Modelled from the spec: `__gdev_list_init` (gdev_list.h, not under src/).
`gdev_vas_new` calls it on `vas->memlist` to give the VAS "an empty
memory-object collection": the node is linked to nothing and records its
container. -/
def __gdev_list_init (container : Option Nat) : gdev_list :=
  { members := [], container := container }

/-- What the callees of one `__gdev_mem_alloc` call answer, in call order. -/
structure MemAnswers where
  /-- `kzalloc(sizeof(*mem))` -/
  mem : Option Nat
  /-- `pscnv_mem_alloc` -/
  bo : Option pscnv_bo
  /-- `pscnv_vspace_map` -/
  mm : Option Nat
  /-- `vmap`, when it is the primitive called -/
  vmap : Option Nat
  /-- `kmap`, when it is the primitive called -/
  kmap : Nat
  deriving DecidableEq, Repr

/-- The C function `__gdev_mem_alloc`: allocate a new memory object.  The
result is the object (or `none` for `NULL`), the VAS object `*vas` as the call
leaves it, and the world. -/
def __gdev_mem_alloc (P : Params) (E : MemAnswers) (vas : gdev_vas_t) (size flags : Nat)
    (w : World) : Option gdev_mem_t × gdev_vas_t × World :=
  let vspace := vas.pvas
  match kzalloc E.mem w with
  | (none, w) => (none, vas, w)                          -- fail_mem
  | (some p, w) =>
  match pscnv_mem_alloc E.bo size flags w with
  | (none, w) => (none, vas, kfree p w)                  -- fail_bo
  | (some bo, w) =>
  match pscnv_vspace_map E.mm vspace bo w with
  | (none, w) => (none, vas, kfree p (pscnv_mem_free bo w))  -- fail_map
  | (some mm, w) =>
  let (map, w) :=
    if flags &&& P.PSCNV_GEM_SYSRAM_SNOOP ≠ 0 then
      if size > PAGE_SIZE P then vmap E.vmap bo.pages (bo.size >>> P.PAGE_SHIFT) w
      else kmap E.kmap bo.pages w
    else (none, w)
  let mem : gdev_mem_t :=
    { self := p, vas := vas, bo := bo, addr := mm, map := map,
      list_entry := __gdev_list_init (some p) }
  (some mem, vas, w)

/-- The C function `__gdev_mem_free`: free the specified memory object.  The
result is the VAS object `*mem->vas` as the call leaves it, and the world. -/
def __gdev_mem_free (P : Params) (mem : gdev_mem_t) (w : World) : gdev_vas_t × World :=
  let vas := mem.vas
  let vspace := vas.pvas
  let bo := mem.bo
  let w :=
    match mem.map with
    | some m => if bo.size > PAGE_SIZE P then vunmap (some m) w else kunmap m w
    | none => w
  let w := pscnv_vspace_unmap vspace mem.addr w
  let w := pscnv_mem_free mem.bo w
  let w := kfree mem.self w
  (vas, w)

/-- The C function `gdev_malloc_device`: allocate a new device memory object. -/
def gdev_malloc_device (P : Params) (E : MemAnswers) (vas : gdev_vas_t) (size : Nat)
    (w : World) : Option gdev_mem_t × gdev_vas_t × World :=
  __gdev_mem_alloc P E vas size P.PSCNV_GEM_VRAM_SMALL w

/-- The C function `gdev_free_device`. -/
def gdev_free_device (P : Params) (mem : gdev_mem_t) (w : World) : gdev_vas_t × World :=
  __gdev_mem_free P mem w

/-- The C function `gdev_malloc_dma`: allocate a new DMA (host) memory object. -/
def gdev_malloc_dma (P : Params) (E : MemAnswers) (vas : gdev_vas_t) (size : Nat)
    (w : World) : Option gdev_mem_t × gdev_vas_t × World :=
  __gdev_mem_alloc P E vas size P.PSCNV_GEM_SYSRAM_SNOOP w

/-- The C function `gdev_free_dma`. -/
def gdev_free_dma (P : Params) (mem : gdev_mem_t) (w : World) : gdev_vas_t × World :=
  __gdev_mem_free P mem w

/-! ## Virtual address spaces -/

/-- What the callees of one `gdev_vas_new` call answer. -/
structure VasAnswers where
  /-- `kzalloc(sizeof(*vas))` -/
  vas : Option Nat
  /-- `pscnv_vspace_new` -/
  vspace : Option Nat
  deriving DecidableEq, Repr

/-- The C function `gdev_vas_new`: allocate a new virtual address space object. -/
def gdev_vas_new (E : VasAnswers) (gdev : gdev_device_t) (size : Nat) (w : World) :
    Option gdev_vas_t × World :=
  match kzalloc E.vas w with
  | (none, w) => (none, w)                               -- fail_vas
  | (some p, w) =>
  match pscnv_vspace_new E.vspace size w with
  | (none, w) => (none, kfree p w)                       -- fail_vspace
  | (some vspace, w) =>
  (some { self := p, gdev := gdev, pvas := vspace, memlist := __gdev_list_init none }, w)

/-- The C function `gdev_vas_free`: free the specified virtual address space object. -/
def gdev_vas_free (vas : gdev_vas_t) (w : World) : World :=
  kfree vas.self (pscnv_vspace_unref vas.pvas w)

/-! ## Device-wide operations -/

/-- The C function `gdev_compute_init`: initialize the compute engine.  The
result is the return code and the world. -/
def gdev_compute_init (gdev : gdev_device_t) (w : World) : Int × World :=
  let chipset := gdev.chipset
  if chipset &&& 0xf0 = 0xC0 then
    (0, nvc0_compute_setup gdev.id w)
  else if chipset &&& 0xf0 = 0x50 ∨ chipset &&& 0xf0 = 0x80 ∨ chipset &&& 0xf0 = 0x90 ∨
      chipset &&& 0xf0 = 0xA0 then
    (-EINVAL, w)
  else
    (-EINVAL, w)

/-- The C function `gdev_info_query`: query a piece of the device-specific
information.  `r` is the outcome of the backend's parameter query, `getparam` the
content that the local `struct drm_pscnv_getparam getparam`, which is not
initialised, happens to have, and `result` the content of `*result` before the
call; the outcome is the return code, the content of `*result` after the call
(a `uint32_t`) and the world. -/
def gdev_info_query (P : Params) (r : GetparamAnswer) (getparam : drm_pscnv_getparam)
    (gdev : gdev_device_t) (type result : Nat) (w : World) : Int × Nat × World :=
  let chipset := gdev.chipset
  if type = P.GDEV_QUERY_NVIDIA_MP_COUNT then
    if chipset &&& 0xf0 ≠ 0xc0 then (-EINVAL, result, w)
    else
      let getparam := { getparam with param := P.PSCNV_GETPARAM_MP_COUNT }
      -- `pscnv_ioctl_getparam(drm, &getparam, NULL);`: the return code is dropped
      let (_, getparam, w) := pscnv_ioctl_getparam r getparam w
      (0, getparam.value % 2 ^ 32, w)
  else (-EINVAL, result, w)

/-! ## Log predicates and concrete inputs -/

/-- Whether a call is `kmap`, the single-page mapping primitive. -/
def Call.isKmap : Call → Bool
  | .kmap _ => true
  | _ => false

/-- Whether a call is `vmap`, the multi-page mapping primitive. -/
def Call.isVmap : Call → Bool
  | .vmap _ _ => true
  | _ => false

/-- Whether a call is `kunmap`. -/
def Call.isKunmap : Call → Bool
  | .kunmap _ => true
  | _ => false

/-- Whether a call is `vunmap`. -/
def Call.isVunmap : Call → Bool
  | .vunmap _ => true
  | _ => false

/-- Modelled from the spec: the size that `pscnv_mem_alloc` (pscnv_mem.c, not
under src/) is assumed to record in `bo->size`, the requested size rounded up to
a whole number of pages. -/
def page_align (P : Params) (size : Nat) : Nat :=
  (size + PAGE_SIZE P - 1) / PAGE_SIZE P * PAGE_SIZE P

/-- A concrete configuration with 4 KiB pages, for evaluating the definitions. -/
def P0 : Params :=
  { PAGE_SHIFT := 12, PSCNV_GEM_SYSRAM_SNOOP := 8, PSCNV_GEM_VRAM_SMALL := 0,
    GDEV_FENCE_COUNT := 4, GDEV_QUERY_NVIDIA_MP_COUNT := 20, PSCNV_GETPARAM_MP_COUNT := 9 }

/-- A world with nothing live and an empty log. -/
def World.empty : World :=
  { res := { heap := [], vspaces := [], chans := [], bos := [], vas_maps := [], vmaps := [],
             kmaps := [], faults := 0 },
    log := [] }

/-- A run of `gdev_ctx_new` in which every callee succeeds. -/
def E_ok : CtxAnswers :=
  { ctx := some 100, chan := some 200,
    ib_bo := some ⟨301, 4096, 3010⟩, ib_mm := some 0x20000000, ib_map := some 401,
    pb_bo := some ⟨302, 1048576, 3020⟩, pb_mm := some 0x20001000, pb_map := some 402,
    fifo_init := 0, regs := some 500,
    fence_bo := some ⟨303, 4096, 3030⟩, fence_mm := some 0x20101000, fence_map := 403,
    init_ok := true }

/-- A Fermi device (chipset NVC0). -/
def gdev_c0 : gdev_device_t := { id := 0, use := 1, chipset := 0xc0 }

/-- A Tesla device (chipset NV50). -/
def gdev_50 : gdev_device_t := { id := 0, use := 1, chipset := 0x50 }

/-- A VAS of device `g` over vspace 7, with an empty collection. -/
def vas_of (g : gdev_device_t) : gdev_vas_t :=
  { self := 50, gdev := g, pvas := 7, memlist := { members := [], container := none } }

/-- A world in which other objects are already live. -/
def W1 : World :=
  { res := { heap := [11], vspaces := [7], chans := [12], bos := [13], vas_maps := [(7, 4096)],
             vmaps := [15], kmaps := [16], faults := 0 },
    log := [] }

/-- A run of `gdev_ctx_new` in which mapping the fence page into the VAS fails. -/
def E_fence_map_fails : CtxAnswers := { E_ok with fence_mm := none }

/-- A run of `gdev_ctx_new` in which `vmap` of the indirect buffer returns `NULL`
and every other callee succeeds. -/
def E_ib_vmap_fails : CtxAnswers := { E_ok with ib_map := none }

/-- A run of `__gdev_mem_alloc` for two pages in which `vmap` returns `NULL` and
every other callee succeeds. -/
def E_mem_vmap_fails : MemAnswers :=
  { mem := some 600, bo := some ⟨601, 8192, 6010⟩, mm := some 0x30000000, vmap := none,
    kmap := 604 }

/-- A run of `__gdev_mem_alloc` in which every callee succeeds. -/
def E_mem_ok : MemAnswers :=
  { mem := some 600, bo := some ⟨601, 8192, 6010⟩, mm := some 0x30000000, vmap := some 603,
    kmap := 604 }

/-- A run of `gdev_vas_new` in which every callee succeeds. -/
def E_vas_ok : VasAnswers := { vas := some 50, vspace := some 7 }

/-- Whether a call is a buffer allocation. -/
def Call.isMemAlloc : Call → Bool
  | .pscnv_mem_alloc _ _ => true
  | _ => false

/-- Whether a call belongs to the register-view step or a later one of
`gdev_ctx_new`: the register accessor, the fence page's `kmap`, the backend hook. -/
def Call.isLate : Call → Bool
  | .nvc0_fifo_ctrl_ptr _ => true
  | .kmap _ => true
  | .compute_init _ => true
  | _ => false

/-! ## Theorems -/

set_option maxHeartbeats 1600000 in
/-- The failing paths of `gdev_ctx_new`.  The call returns `NULL` exactly when
one of the tested steps fails; whenever it returns `NULL` the live resources are
those of before the call; and on a chipset outside the 0xC0 family the calls it
made stop before the register accessor: at most two buffer allocations, and
neither `nvc0_fifo_ctrl_ptr`, `kmap` nor the backend hook. -/
theorem gdev_ctx_new_fail (P : Params) (E : CtxAnswers) (gdev : gdev_device_t)
    (vas : gdev_vas_t) (w : World) :
    ((gdev_ctx_new P E gdev vas w).1 = none ↔
      (E.ctx = none ∨ E.chan = none ∨ E.ib_bo = none ∨ E.ib_mm = none ∨ E.pb_bo = none ∨
        E.pb_mm = none ∨ E.fifo_init ≠ 0 ∨ gdev.chipset &&& 0xf0 ≠ 0xc0 ∨
        E.fence_bo = none ∨ E.fence_mm = none)) ∧
    ((gdev_ctx_new P E gdev vas w).1 = none → (gdev_ctx_new P E gdev vas w).2.res = w.res) ∧
    (gdev.chipset &&& 0xf0 ≠ 0xc0 →
      ∃ evs, (gdev_ctx_new P E gdev vas w).2.log = w.log ++ evs ∧
        evs.countP Call.isMemAlloc ≤ 2 ∧ ∀ c ∈ evs, c.isLate = false) := by
  obtain ⟨c, ch, ib, ibm, ibv, pb, pbm, pbv, fi, regs, fb, fm, fv, ok⟩ := E
  obtain ⟨⟨heap, vspaces, chans, bos, vas_maps, vmaps, kmaps, faults⟩, log⟩ := w
  generalize hr : gdev_ctx_new P _ gdev vas _ = r
  rcases c with _ | p
  · simp [gdev_ctx_new, gdev_ctx_t.zeroed, fail_ctx, fail_chan, fail_ib, fail_ibmap, fail_pb,
      fail_pbmap, fail_fifo_init, fail_fence_map, kzalloc, kfree, pscnv_chan_new,
      pscnv_chan_unref, pscnv_mem_alloc, pscnv_mem_free, pscnv_vspace_map, pscnv_vspace_unmap,
      vmap, vunmap, kmap, chan_init_ib, nvc0_fifo_ctrl_ptr, compute_init, record] at hr
    subst hr
    simp [Call.isMemAlloc, Call.isLate, List.countP_cons]
  rcases ch with _ | chan
  · simp [gdev_ctx_new, gdev_ctx_t.zeroed, fail_ctx, fail_chan, fail_ib, fail_ibmap, fail_pb,
      fail_pbmap, fail_fifo_init, fail_fence_map, kzalloc, kfree, pscnv_chan_new,
      pscnv_chan_unref, pscnv_mem_alloc, pscnv_mem_free, pscnv_vspace_map, pscnv_vspace_unmap,
      vmap, vunmap, kmap, chan_init_ib, nvc0_fifo_ctrl_ptr, compute_init, record] at hr
    subst hr
    simp [Call.isMemAlloc, Call.isLate, List.countP_cons]
  rcases ib with _ | ib
  · simp [gdev_ctx_new, gdev_ctx_t.zeroed, fail_ctx, fail_chan, fail_ib, fail_ibmap, fail_pb,
      fail_pbmap, fail_fifo_init, fail_fence_map, kzalloc, kfree, pscnv_chan_new,
      pscnv_chan_unref, pscnv_mem_alloc, pscnv_mem_free, pscnv_vspace_map, pscnv_vspace_unmap,
      vmap, vunmap, kmap, chan_init_ib, nvc0_fifo_ctrl_ptr, compute_init, record] at hr
    subst hr
    simp [Call.isMemAlloc, Call.isLate, List.countP_cons]
  rcases ibm with _ | ibm
  · simp [gdev_ctx_new, gdev_ctx_t.zeroed, fail_ctx, fail_chan, fail_ib, fail_ibmap, fail_pb,
      fail_pbmap, fail_fifo_init, fail_fence_map, kzalloc, kfree, pscnv_chan_new,
      pscnv_chan_unref, pscnv_mem_alloc, pscnv_mem_free, pscnv_vspace_map, pscnv_vspace_unmap,
      vmap, vunmap, kmap, chan_init_ib, nvc0_fifo_ctrl_ptr, compute_init, record] at hr
    subst hr
    simp [Call.isMemAlloc, Call.isLate, List.countP_cons]
  rcases pb with _ | pb
  · rcases ibv with _ | ibv <;>
      (simp [gdev_ctx_new, gdev_ctx_t.zeroed, fail_ctx, fail_chan, fail_ib, fail_ibmap, fail_pb,
          fail_pbmap, fail_fifo_init, fail_fence_map, kzalloc, kfree, pscnv_chan_new,
          pscnv_chan_unref, pscnv_mem_alloc, pscnv_mem_free, pscnv_vspace_map, pscnv_vspace_unmap,
          vmap, vunmap, kmap, chan_init_ib, nvc0_fifo_ctrl_ptr, compute_init, record] at hr
       subst hr
       simp [Call.isMemAlloc, Call.isLate, List.countP_cons])
  rcases pbm with _ | pbm
  · rcases ibv with _ | ibv <;>
      (simp [gdev_ctx_new, gdev_ctx_t.zeroed, fail_ctx, fail_chan, fail_ib, fail_ibmap, fail_pb,
          fail_pbmap, fail_fifo_init, fail_fence_map, kzalloc, kfree, pscnv_chan_new,
          pscnv_chan_unref, pscnv_mem_alloc, pscnv_mem_free, pscnv_vspace_map, pscnv_vspace_unmap,
          vmap, vunmap, kmap, chan_init_ib, nvc0_fifo_ctrl_ptr, compute_init, record] at hr
       subst hr
       simp [Call.isMemAlloc, Call.isLate, List.countP_cons])
  by_cases hfi : fi = 0
  swap
  · rcases ibv with _ | ibv <;> rcases pbv with _ | pbv <;>
      (simp [hfi, gdev_ctx_new, gdev_ctx_t.zeroed, fail_ctx, fail_chan, fail_ib, fail_ibmap, fail_pb,
          fail_pbmap, fail_fifo_init, fail_fence_map, kzalloc, kfree, pscnv_chan_new,
          pscnv_chan_unref, pscnv_mem_alloc, pscnv_mem_free, pscnv_vspace_map, pscnv_vspace_unmap,
          vmap, vunmap, kmap, chan_init_ib, nvc0_fifo_ctrl_ptr, compute_init, record] at hr
       subst hr
       simp [Call.isMemAlloc, Call.isLate, List.countP_cons, hfi])
  subst hfi
  by_cases hc : gdev.chipset &&& 0xf0 = 0xc0
  swap
  · rcases ibv with _ | ibv <;> rcases pbv with _ | pbv <;>
      (simp [hc, gdev_ctx_new, gdev_ctx_t.zeroed, fail_ctx, fail_chan, fail_ib, fail_ibmap, fail_pb,
          fail_pbmap, fail_fifo_init, fail_fence_map, kzalloc, kfree, pscnv_chan_new,
          pscnv_chan_unref, pscnv_mem_alloc, pscnv_mem_free, pscnv_vspace_map, pscnv_vspace_unmap,
          vmap, vunmap, kmap, chan_init_ib, nvc0_fifo_ctrl_ptr, compute_init, record] at hr
       subst hr
       simp [Call.isMemAlloc, Call.isLate, List.countP_cons, hc])
  rcases fb with _ | fb
  · rcases ibv with _ | ibv <;> rcases pbv with _ | pbv <;>
      (simp [hc, gdev_ctx_new, gdev_ctx_t.zeroed, fail_ctx, fail_chan, fail_ib, fail_ibmap, fail_pb,
          fail_pbmap, fail_fifo_init, fail_fence_map, kzalloc, kfree, pscnv_chan_new,
          pscnv_chan_unref, pscnv_mem_alloc, pscnv_mem_free, pscnv_vspace_map, pscnv_vspace_unmap,
          vmap, vunmap, kmap, chan_init_ib, nvc0_fifo_ctrl_ptr, compute_init, record] at hr
       subst hr
       simp [Call.isMemAlloc, Call.isLate, List.countP_cons, hc])
  rcases fm with _ | fm
  · rcases ibv with _ | ibv <;> rcases pbv with _ | pbv <;>
      (simp [hc, gdev_ctx_new, gdev_ctx_t.zeroed, fail_ctx, fail_chan, fail_ib, fail_ibmap, fail_pb,
          fail_pbmap, fail_fifo_init, fail_fence_map, kzalloc, kfree, pscnv_chan_new,
          pscnv_chan_unref, pscnv_mem_alloc, pscnv_mem_free, pscnv_vspace_map, pscnv_vspace_unmap,
          vmap, vunmap, kmap, chan_init_ib, nvc0_fifo_ctrl_ptr, compute_init, record] at hr
       subst hr
       simp [Call.isMemAlloc, Call.isLate, List.countP_cons, hc])
  rcases ibv with _ | ibv <;> rcases pbv with _ | pbv <;>
      (simp [hc, gdev_ctx_new, gdev_ctx_t.zeroed, fail_ctx, fail_chan, fail_ib, fail_ibmap, fail_pb,
          fail_pbmap, fail_fifo_init, fail_fence_map, kzalloc, kfree, pscnv_chan_new,
          pscnv_chan_unref, pscnv_mem_alloc, pscnv_mem_free, pscnv_vspace_map, pscnv_vspace_unmap,
          vmap, vunmap, kmap, chan_init_ib, nvc0_fifo_ctrl_ptr, compute_init, record] at hr
       subst hr
       simp [Call.isMemAlloc, Call.isLate, List.countP_cons, hc])

/-- The successful path of `gdev_ctx_new`, written out: when the context
allocation, the channel, the three buffer allocations, the three VAS mappings and
the FIFO registration succeed on a 0xC0 chipset, the call returns this context
and leaves this world, whatever `vmap`, the register accessor and the backend
hook answered. -/
theorem gdev_ctx_new_ok (P : Params) (E : CtxAnswers) (gdev : gdev_device_t)
    (vas : gdev_vas_t) (w : World) (p chan ibm pbm fm : Nat) (ib pb fb : pscnv_bo)
    (h1 : E.ctx = some p) (h2 : E.chan = some chan) (h3 : E.ib_bo = some ib)
    (h4 : E.ib_mm = some ibm) (h5 : E.pb_bo = some pb) (h6 : E.pb_mm = some pbm)
    (h7 : E.fifo_init = 0) (h8 : gdev.chipset &&& 0xf0 = 0xc0)
    (h9 : E.fence_bo = some fb) (h10 : E.fence_mm = some fm) :
    gdev_ctx_new P E gdev vas w =
      (some
        { self := p, vas := some vas, pctx := some chan,
          fifo := { regs := E.regs, ib_bo := some ib, ib_map := E.ib_map, ib_order := 9,
                    ib_base := ibm, ib_mask := 511, ib_put := 0, ib_get := 0,
                    pb_bo := some pb, pb_map := E.pb_map, pb_order := 20, pb_base := pbm,
                    pb_mask := 1048575, pb_size := 1048576, pb_pos := 0, pb_put := 0,
                    pb_get := 0 },
          fence := { bo := some fb, map := some E.fence_map, addr := fm,
                     sequence := fence_sequence_clear P.GDEV_FENCE_COUNT
                       (List.replicate P.GDEV_FENCE_COUNT 0) } },
       { res := { heap := p :: w.res.heap,
                  vspaces := w.res.vspaces,
                  chans := chan :: w.res.chans,
                  bos := fb.handle :: pb.handle :: ib.handle :: w.res.bos,
                  vas_maps := (vas.pvas, fm) :: (vas.pvas, pbm) :: (vas.pvas, ibm) ::
                    w.res.vas_maps,
                  vmaps := E.pb_map.toList ++ (E.ib_map.toList ++ w.res.vmaps),
                  kmaps := fb.pages :: w.res.kmaps,
                  faults := w.res.faults },
         log := w.log ++
           [.kzalloc, .pscnv_chan_new vas.pvas,
            .pscnv_mem_alloc 4096 P.PSCNV_GEM_SYSRAM_SNOOP,
            .pscnv_vspace_map vas.pvas ib.handle,
            .vmap ib.pages (ib.size >>> P.PAGE_SHIFT),
            .pscnv_mem_alloc 1048576 P.PSCNV_GEM_SYSRAM_SNOOP,
            .pscnv_vspace_map vas.pvas pb.handle,
            .vmap pb.pages (pb.size >>> P.PAGE_SHIFT),
            .chan_init_ib chan ibm 9,
            .nvc0_fifo_ctrl_ptr chan,
            .pscnv_mem_alloc (PAGE_SIZE P) P.PSCNV_GEM_SYSRAM_SNOOP,
            .pscnv_vspace_map vas.pvas fb.handle,
            .kmap fb.pages,
            .compute_init p] }) := by
  obtain ⟨c, ch, ib0, ibm0, ibv, pb0, pbm0, pbv, fi, regs, fb0, fm0, fv, ok⟩ := E
  obtain ⟨⟨heap, vspaces, chans, bos, vas_maps, vmaps, kmaps, faults⟩, log⟩ := w
  simp only at h1 h2 h3 h4 h5 h6 h7 h9 h10
  subst h1 h2 h3 h4 h5 h6 h7 h9 h10
  rcases ibv with _ | ibv <;> rcases pbv with _ | pbv <;>
    simp [h8, gdev_ctx_new, gdev_ctx_t.zeroed, fail_ctx, fail_chan, fail_ib, fail_ibmap, fail_pb,
      fail_pbmap, fail_fifo_init, fail_fence_map, kzalloc, kfree, pscnv_chan_new,
      pscnv_chan_unref, pscnv_mem_alloc, pscnv_mem_free, pscnv_vspace_map, pscnv_vspace_unmap,
      vmap, vunmap, kmap, chan_init_ib, nvc0_fifo_ctrl_ptr, compute_init, record]

/-- A successful `gdev_ctx_new` went through the successful path: its answers
were all favourable and its results are those of `gdev_ctx_new_ok`. -/
theorem gdev_ctx_new_some (P : Params) (E : CtxAnswers) (gdev : gdev_device_t)
    (vas : gdev_vas_t) (w : World) (ctx : gdev_ctx_t) (w1 : World)
    (h : gdev_ctx_new P E gdev vas w = (some ctx, w1)) :
    ∃ p chan ibm pbm fm ib pb fb,
      E.ctx = some p ∧ E.chan = some chan ∧ E.ib_bo = some ib ∧ E.ib_mm = some ibm ∧
      E.pb_bo = some pb ∧ E.pb_mm = some pbm ∧ E.fifo_init = 0 ∧
      gdev.chipset &&& 0xf0 = 0xc0 ∧ E.fence_bo = some fb ∧ E.fence_mm = some fm := by
  have hne : (gdev_ctx_new P E gdev vas w).1 ≠ none := by rw [h]; simp
  have hD := mt (gdev_ctx_new_fail P E gdev vas w).1.2 hne
  simp only [not_or, ne_eq, not_not] at hD
  obtain ⟨h1, h2, h3, h4, h5, h6, h7, h8, h9, h10⟩ := hD
  obtain ⟨p, hp⟩ := Option.ne_none_iff_exists'.1 h1
  obtain ⟨chan, hchan⟩ := Option.ne_none_iff_exists'.1 h2
  obtain ⟨ib, hib⟩ := Option.ne_none_iff_exists'.1 h3
  obtain ⟨ibm, hibm⟩ := Option.ne_none_iff_exists'.1 h4
  obtain ⟨pb, hpb⟩ := Option.ne_none_iff_exists'.1 h5
  obtain ⟨pbm, hpbm⟩ := Option.ne_none_iff_exists'.1 h6
  obtain ⟨fb, hfb⟩ := Option.ne_none_iff_exists'.1 h9
  obtain ⟨fm, hfm⟩ := Option.ne_none_iff_exists'.1 h10
  exact ⟨p, chan, ibm, pbm, fm, ib, pb, fb, hp, hchan, hib, hibm, hpb, hpbm, h7, h8, hfb, hfm⟩

/-- Clearing the first `k` slots of a fence array leaves `k` zeros followed by
the untouched rest. -/
theorem foldl_set_zero (s : List Nat) (k : Nat) (hk : k ≤ s.length) :
    (List.range k).foldl (fun s i => s.set i 0) s = List.replicate k 0 ++ s.drop k := by
  induction k with
  | zero => simp
  | succ k ih =>
    have hk1 : k < s.length := hk
    rw [List.range_succ, List.foldl_append, ih (Nat.le_of_lt hk1)]
    simp only [List.foldl_cons, List.foldl_nil]
    rw [List.set_append_right _ _ (by simp), List.drop_eq_getElem_cons hk1]
    simp only [List.length_replicate, Nat.sub_self, List.set_cons_zero, List.replicate_succ',
      List.append_assoc, List.singleton_append]

/-- The fence loop zeroes every slot of an array of `count` slots. -/
theorem fence_sequence_clear_eq (count : Nat) (s : List Nat) (hs : s.length = count) :
    fence_sequence_clear count s = List.replicate count 0 := by
  unfold fence_sequence_clear
  rw [foldl_set_zero s count (by omega)]
  simp [← hs]

/-! ### Claims on `gdev_ctx_new` and `gdev_ctx_free` -/

/-- C1. Atomicity of `gdev_ctx_new` on failure: for every pattern of answers of
the backend for which `gdev_ctx_new` returns `NULL`, the numbers of live buffer
objects, live VAS mappings, live CPU mappings and channel references after the
call equal those before it; indeed the live resources are the same, with no
release of anything that was not live. -/
theorem gdev_ctx_new_failure_restores (P : Params) (E : CtxAnswers) (gdev : gdev_device_t)
    (vas : gdev_vas_t) (w : World) (h : (gdev_ctx_new P E gdev vas w).1 = none) :
    (gdev_ctx_new P E gdev vas w).2.nBos = w.nBos ∧
    (gdev_ctx_new P E gdev vas w).2.nVasMaps = w.nVasMaps ∧
    (gdev_ctx_new P E gdev vas w).2.nCpuMaps = w.nCpuMaps ∧
    (gdev_ctx_new P E gdev vas w).2.nChanRefs = w.nChanRefs ∧
    (gdev_ctx_new P E gdev vas w).2.res = w.res := by
  have hres := (gdev_ctx_new_fail P E gdev vas w).2.1 h
  simp [World.nBos, World.nVasMaps, World.nCpuMaps, World.nChanRefs, hres]

/-- Witness of C1: the fence page cannot be mapped into the VAS, after six
steps have acquired their resources. -/
theorem gdev_ctx_new_failure_restores_witness :
    (gdev_ctx_new P0 E_fence_map_fails gdev_c0 (vas_of gdev_c0) W1).1 = none ∧
    (gdev_ctx_new P0 E_fence_map_fails gdev_c0 (vas_of gdev_c0) W1).2.nBos = 1 ∧
    (gdev_ctx_new P0 E_fence_map_fails gdev_c0 (vas_of gdev_c0) W1).2.res = W1.res :=
  ⟨by decide,
   (gdev_ctx_new_failure_restores P0 E_fence_map_fails gdev_c0 (vas_of gdev_c0) W1
     (by decide)).1,
   (gdev_ctx_new_failure_restores P0 E_fence_map_fails gdev_c0 (vas_of gdev_c0) W1
     (by decide)).2.2.2.2⟩

/-- Counterexample to C2: the CPU mapping of the indirect buffer fails (`vmap`
returns `NULL`), and `gdev_ctx_new` returns a context, whose `ib_map` is `NULL`. -/
theorem gdev_ctx_new_returns_ctx_without_ib_map :
    E_ib_vmap_fails.ib_map = none ∧
    ∃ ctx, (gdev_ctx_new P0 E_ib_vmap_fails gdev_c0 (vas_of gdev_c0) World.empty).1 = some ctx ∧
      ctx.fifo.ib_map = none := by
  decide

/-- C2, amended. `gdev_ctx_new` returns `NULL` exactly when one of the steps it
tests fails: the allocation of the context, the channel creation, the
allocation or the VAS mapping of the IB ring, of the PB ring or of the fence
page, the FIFO registration, or the generation test of the register-view step.
The results of the CPU mappings, of the register accessor and of the backend
hook are not tested and do not enter. -/
theorem gdev_ctx_new_null_iff (P : Params) (E : CtxAnswers) (gdev : gdev_device_t)
    (vas : gdev_vas_t) (w : World) :
    (gdev_ctx_new P E gdev vas w).1 = none ↔
      (E.ctx = none ∨ E.chan = none ∨ E.ib_bo = none ∨ E.ib_mm = none ∨ E.pb_bo = none ∨
        E.pb_mm = none ∨ E.fifo_init ≠ 0 ∨ gdev.chipset &&& 0xf0 ≠ 0xc0 ∨
        E.fence_bo = none ∨ E.fence_mm = none) :=
  (gdev_ctx_new_fail P E gdev vas w).1

/-- C3. Round trip of `gdev_ctx_new` and `gdev_ctx_free`: when `gdev_ctx_new`
succeeds and returns `ctx`, `gdev_ctx_free ctx` runs to its end and releases
what the construction acquired, in this order: the fence page, the PB ring, the
IB ring (for each the CPU unmap, the VAS unmap at the GPU address the backend
gave at construction, the buffer free), then the channel reference and the
context itself.  The live resources, and so the four counts, are those of
before `gdev_ctx_new`. -/
theorem gdev_ctx_new_free_roundtrip (P : Params) (E : CtxAnswers) (gdev : gdev_device_t)
    (vas : gdev_vas_t) (w : World) (ctx : gdev_ctx_t) (w1 : World)
    (h : gdev_ctx_new P E gdev vas w = (some ctx, w1)) :
    ∃ w2 p chan ibm pbm fm ib pb fb,
      gdev_ctx_free ctx w1 = some w2 ∧
      E.ctx = some p ∧ E.chan = some chan ∧ E.ib_bo = some ib ∧ E.ib_mm = some ibm ∧
      E.pb_bo = some pb ∧ E.pb_mm = some pbm ∧ E.fence_bo = some fb ∧ E.fence_mm = some fm ∧
      w2.log = w1.log ++
        [.kunmap fb.pages, .pscnv_vspace_unmap vas.pvas fm, .pscnv_mem_free fb.handle,
         .vunmap E.pb_map, .pscnv_vspace_unmap vas.pvas pbm, .pscnv_mem_free pb.handle,
         .vunmap E.ib_map, .pscnv_vspace_unmap vas.pvas ibm, .pscnv_mem_free ib.handle,
         .pscnv_chan_unref chan, .kfree p] ∧
      w2.res = w.res ∧
      w2.nBos = w.nBos ∧ w2.nVasMaps = w.nVasMaps ∧ w2.nCpuMaps = w.nCpuMaps ∧
      w2.nChanRefs = w.nChanRefs := by
  obtain ⟨p, chan, ibm, pbm, fm, ib, pb, fb, h1, h2, h3, h4, h5, h6, h7, h8, h9, h10⟩ :=
    gdev_ctx_new_some P E gdev vas w ctx w1 h
  rw [gdev_ctx_new_ok P E gdev vas w p chan ibm pbm fm ib pb fb h1 h2 h3 h4 h5 h6 h7 h8 h9 h10]
    at h
  obtain ⟨hctx, hw1⟩ := Prod.mk.inj h
  obtain rfl := Option.some.inj hctx
  subst hw1
  obtain ⟨⟨heap, vspaces, chans, bos, vas_maps, vmaps, kmaps, faults⟩, log⟩ := w
  refine ⟨_, p, chan, ibm, pbm, fm, ib, pb, fb, rfl, h1, h2, h3, h4, h5, h6, h9, h10, ?_⟩
  rcases E.ib_map with _ | ibv <;> rcases E.pb_map with _ | pbv <;>
    simp [kunmap, kfree, pscnv_chan_unref, pscnv_mem_free, pscnv_vspace_unmap, vunmap, record,
      World.nBos, World.nVasMaps, World.nCpuMaps, World.nChanRefs]

/-- Witness of C3: every callee succeeds, in a world where other objects live. -/
theorem gdev_ctx_new_free_roundtrip_witness :
    ∃ ctx w1, gdev_ctx_new P0 E_ok gdev_c0 (vas_of gdev_c0) W1 = (some ctx, w1) ∧
      ∃ w2, gdev_ctx_free ctx w1 = some w2 ∧ w2.res = W1.res := by
  refine ⟨_, _, rfl, ?_⟩
  obtain ⟨w2, _, _, _, _, _, _, _, _, hfree, _, _, _, _, _, _, _, _, _, hres, _⟩ :=
    gdev_ctx_new_free_roundtrip P0 E_ok gdev_c0 (vas_of gdev_c0) W1 _ _ rfl
  exact ⟨w2, hfree, hres⟩

/-- Counterexample to C4: on an NV50 chipset, whose generation bits are 0x50,
`gdev_ctx_new` creates the channel, allocates and maps both rings and registers
the FIFO before it gives up at the register-view step and rolls back. -/
theorem gdev_ctx_new_nv50_acquires_first :
    gdev_50.chipset &&& 0xf0 ≠ 0xc0 ∧
    gdev_ctx_new P0 E_ok gdev_50 (vas_of gdev_50) World.empty =
      (none,
       { res := World.empty.res,
         log := [.kzalloc, .pscnv_chan_new 7,
                 .pscnv_mem_alloc 4096 8, .pscnv_vspace_map 7 301, .vmap 3010 1,
                 .pscnv_mem_alloc 1048576 8, .pscnv_vspace_map 7 302, .vmap 3020 256,
                 .chan_init_ib 200 0x20000000 9,
                 .vunmap (some 402), .pscnv_vspace_unmap 7 0x20001000, .pscnv_mem_free 302,
                 .vunmap (some 401), .pscnv_vspace_unmap 7 0x20000000, .pscnv_mem_free 301,
                 .pscnv_chan_unref 200, .kfree 100] }) := by
  decide

/-- C4, amended. For every chipset whose generation bits are not 0xC0,
`gdev_ctx_new` returns `NULL` and leaves the live resources as they were; the
rejection is not at step 1: when the backend answers favourably, the channel is
created, the IB and PB rings are allocated, mapped into the VAS and CPU-mapped
and the FIFO is registered, and only then is everything released again. -/
theorem gdev_ctx_new_unsupported_chipset (P : Params) (E : CtxAnswers) (gdev : gdev_device_t)
    (vas : gdev_vas_t) (w : World) (hc : gdev.chipset &&& 0xf0 ≠ 0xc0) :
    (gdev_ctx_new P E gdev vas w).1 = none ∧
    (gdev_ctx_new P E gdev vas w).2.res = w.res ∧
    ∀ p chan ib ibm pb pbm, E.ctx = some p → E.chan = some chan → E.ib_bo = some ib →
      E.ib_mm = some ibm → E.pb_bo = some pb → E.pb_mm = some pbm → E.fifo_init = 0 →
      (gdev_ctx_new P E gdev vas w).2.log = w.log ++
        [.kzalloc, .pscnv_chan_new vas.pvas,
         .pscnv_mem_alloc 4096 P.PSCNV_GEM_SYSRAM_SNOOP,
         .pscnv_vspace_map vas.pvas ib.handle,
         .vmap ib.pages (ib.size >>> P.PAGE_SHIFT),
         .pscnv_mem_alloc 1048576 P.PSCNV_GEM_SYSRAM_SNOOP,
         .pscnv_vspace_map vas.pvas pb.handle,
         .vmap pb.pages (pb.size >>> P.PAGE_SHIFT),
         .chan_init_ib chan ibm 9,
         .vunmap E.pb_map, .pscnv_vspace_unmap vas.pvas pbm, .pscnv_mem_free pb.handle,
         .vunmap E.ib_map, .pscnv_vspace_unmap vas.pvas ibm, .pscnv_mem_free ib.handle,
         .pscnv_chan_unref chan, .kfree p] := by
  have hnone : (gdev_ctx_new P E gdev vas w).1 = none :=
    (gdev_ctx_new_fail P E gdev vas w).1.2
      (Or.inr (Or.inr (Or.inr (Or.inr (Or.inr (Or.inr (Or.inr (Or.inl hc))))))))
  refine ⟨hnone, (gdev_ctx_new_fail P E gdev vas w).2.1 hnone, ?_⟩
  intro p chan ib ibm pb pbm h1 h2 h3 h4 h5 h6 h7
  obtain ⟨c, ch, ib0, ibm0, ibv, pb0, pbm0, pbv, fi, regs, fb0, fm0, fv, ok⟩ := E
  obtain ⟨⟨heap, vspaces, chans, bos, vas_maps, vmaps, kmaps, faults⟩, log⟩ := w
  simp only at h1 h2 h3 h4 h5 h6 h7
  subst h1 h2 h3 h4 h5 h6 h7
  rcases ibv with _ | ibv <;> rcases pbv with _ | pbv <;>
    simp [hc, gdev_ctx_new, gdev_ctx_t.zeroed, fail_ctx, fail_chan, fail_ib, fail_ibmap, fail_pb,
      fail_pbmap, fail_fifo_init, fail_fence_map, kzalloc, kfree, pscnv_chan_new,
      pscnv_chan_unref, pscnv_mem_alloc, pscnv_mem_free, pscnv_vspace_map, pscnv_vspace_unmap,
      vmap, vunmap, kmap, chan_init_ib, nvc0_fifo_ctrl_ptr, compute_init, record]

/-- Witness of C4, amended: an NV50 chipset in a world where other objects live. -/
theorem gdev_ctx_new_unsupported_chipset_witness :
    gdev_50.chipset &&& 0xf0 ≠ 0xc0 ∧
    (gdev_ctx_new P0 E_ok gdev_50 (vas_of gdev_50) W1).1 = none ∧
    (gdev_ctx_new P0 E_ok gdev_50 (vas_of gdev_50) W1).2.res = W1.res ∧
    (gdev_ctx_new P0 E_ok gdev_50 (vas_of gdev_50) W1).2.log.length = 17 := by
  have h := gdev_ctx_new_unsupported_chipset P0 E_ok gdev_50 (vas_of gdev_50) W1 (by decide)
  refine ⟨by decide, h.1, h.2.1, ?_⟩
  rw [h.2.2 100 200 ⟨301, 4096, 3010⟩ 0x20000000 ⟨302, 1048576, 3020⟩ 0x20001000
    rfl rfl rfl rfl rfl rfl rfl]
  rfl

/-- C5. Initial descriptor state of a successfully constructed context:
`ib_order = 9` and `ib_mask = 511 = 2^ib_order - 1`; `pb_order = 20`,
`pb_mask = 2^20 - 1 = 1048575` and `pb_size = 2^20`; all cursors are 0 and so lie
in `[0, mask]`; every one of the `GDEV_FENCE_COUNT` fence slots is 0; and the
buffers requested during the call are, in order, the IB with `8 * 2^9` bytes,
the PB with `2^20` bytes and the fence page with `PAGE_SIZE` bytes. -/
theorem gdev_ctx_new_initial_state (P : Params) (E : CtxAnswers) (gdev : gdev_device_t)
    (vas : gdev_vas_t) (w : World) (ctx : gdev_ctx_t) (w1 : World)
    (h : gdev_ctx_new P E gdev vas w = (some ctx, w1)) :
    (ctx.fifo.ib_order = 9 ∧ ctx.fifo.ib_mask = 511 ∧
      ctx.fifo.ib_mask = 2 ^ ctx.fifo.ib_order - 1) ∧
    (ctx.fifo.pb_order = 20 ∧ ctx.fifo.pb_mask = 1048575 ∧
      ctx.fifo.pb_mask = 2 ^ ctx.fifo.pb_order - 1 ∧ ctx.fifo.pb_size = 2 ^ ctx.fifo.pb_order) ∧
    (ctx.fifo.ib_put = 0 ∧ ctx.fifo.ib_get = 0 ∧ ctx.fifo.pb_put = 0 ∧ ctx.fifo.pb_get = 0 ∧
      ctx.fifo.pb_pos = 0) ∧
    (ctx.fifo.ib_put ≤ ctx.fifo.ib_mask ∧ ctx.fifo.ib_get ≤ ctx.fifo.ib_mask ∧
      ctx.fifo.pb_put ≤ ctx.fifo.pb_mask ∧ ctx.fifo.pb_get ≤ ctx.fifo.pb_mask ∧
      ctx.fifo.pb_pos ≤ ctx.fifo.pb_mask) ∧
    (ctx.fence.sequence.length = P.GDEV_FENCE_COUNT ∧ ∀ x ∈ ctx.fence.sequence, x = 0) ∧
    ∃ evs, w1.log = w.log ++ evs ∧
      evs.filter Call.isMemAlloc =
        [.pscnv_mem_alloc (8 * 2 ^ 9) P.PSCNV_GEM_SYSRAM_SNOOP,
         .pscnv_mem_alloc (2 ^ 20) P.PSCNV_GEM_SYSRAM_SNOOP,
         .pscnv_mem_alloc (PAGE_SIZE P) P.PSCNV_GEM_SYSRAM_SNOOP] := by
  obtain ⟨p, chan, ibm, pbm, fm, ib, pb, fb, h1, h2, h3, h4, h5, h6, h7, h8, h9, h10⟩ :=
    gdev_ctx_new_some P E gdev vas w ctx w1 h
  rw [gdev_ctx_new_ok P E gdev vas w p chan ibm pbm fm ib pb fb h1 h2 h3 h4 h5 h6 h7 h8 h9 h10]
    at h
  obtain ⟨hctx, hw1⟩ := Prod.mk.inj h
  obtain rfl := Option.some.inj hctx
  subst hw1
  rw [fence_sequence_clear_eq _ _ (List.length_replicate _ _)]
  refine ⟨by simp, by simp, by simp, by simp, ?_, ⟨_, rfl, ?_⟩⟩
  · simp only [List.length_replicate, true_and]
    intro x hx
    exact List.eq_of_mem_replicate hx
  · simp [Call.isMemAlloc, List.filter_cons]

/-- Witness of C5: every callee succeeds. -/
theorem gdev_ctx_new_initial_state_witness :
    ∃ ctx w1, gdev_ctx_new P0 E_ok gdev_c0 (vas_of gdev_c0) W1 = (some ctx, w1) ∧
      ctx.fifo.ib_mask = 511 ∧ ctx.fifo.pb_mask = 1048575 ∧ ctx.fence.sequence = [0, 0, 0, 0] :=
  ⟨_, _, rfl,
   (gdev_ctx_new_initial_state P0 E_ok gdev_c0 (vas_of gdev_c0) W1 _ _ rfl).1.2.1,
   (gdev_ctx_new_initial_state P0 E_ok gdev_c0 (vas_of gdev_c0) W1 _ _ rfl).2.1.2.1,
   by decide⟩

/-! ### Claims on the device-wide operations -/

/-- C10. Uniform rejection of unsupported generations.  For every chipset,
`gdev_compute_init` returns 0 exactly when `(chipset & 0xf0) == 0xC0`, and then it
has invoked `nvc0_compute_setup` once and nothing else; otherwise it returns
`-EINVAL` and has invoked nothing.  And for every chipset with
`(chipset & 0xf0) != 0xC0`, `gdev_ctx_new` returns `NULL`, with the live
resources as before the call (so the channel and both rings are released),
having stopped no later than the register-view step: at most the two ring
buffers were allocated, and neither the register accessor, nor the fence page's
`kmap`, nor the backend hook was called. -/
theorem unsupported_generation_rejected (P : Params) (E : CtxAnswers) (gdev : gdev_device_t)
    (vas : gdev_vas_t) (w : World) :
    ((gdev_compute_init gdev w).1 = 0 ↔ gdev.chipset &&& 0xf0 = 0xC0) ∧
    (gdev.chipset &&& 0xf0 = 0xC0 →
      gdev_compute_init gdev w =
        (0, { res := w.res, log := w.log ++ [.nvc0_compute_setup gdev.id] })) ∧
    (gdev.chipset &&& 0xf0 ≠ 0xC0 → gdev_compute_init gdev w = (-EINVAL, w)) ∧
    (gdev.chipset &&& 0xf0 ≠ 0xC0 →
      (gdev_ctx_new P E gdev vas w).1 = none ∧
      (gdev_ctx_new P E gdev vas w).2.res = w.res ∧
      ∃ evs, (gdev_ctx_new P E gdev vas w).2.log = w.log ++ evs ∧
        evs.countP Call.isMemAlloc ≤ 2 ∧ ∀ c ∈ evs, c.isLate = false) := by
  refine ⟨?_, ?_, ?_, ?_⟩
  · by_cases hc : gdev.chipset &&& 0xf0 = 0xC0
    · simp [gdev_compute_init, hc]
    · simp [gdev_compute_init, hc, EINVAL]
  · intro hc
    simp [gdev_compute_init, hc, nvc0_compute_setup, record]
  · intro hc
    simp [gdev_compute_init, hc]
  · intro hc
    have hnone : (gdev_ctx_new P E gdev vas w).1 = none :=
      (gdev_ctx_new_fail P E gdev vas w).1.2
        (Or.inr (Or.inr (Or.inr (Or.inr (Or.inr (Or.inr (Or.inr (Or.inl hc))))))))
    exact ⟨hnone, (gdev_ctx_new_fail P E gdev vas w).2.1 hnone,
      (gdev_ctx_new_fail P E gdev vas w).2.2 hc⟩

/-- Witness of C10: a Fermi chipset (NVC0) for the accepted case, a Tesla
chipset (NV50) for the rejected one. -/
theorem unsupported_generation_rejected_witness :
    gdev_c0.chipset &&& 0xf0 = 0xC0 ∧
    gdev_compute_init gdev_c0 W1 =
      (0, { res := W1.res, log := W1.log ++ [.nvc0_compute_setup gdev_c0.id] }) ∧
    gdev_50.chipset &&& 0xf0 ≠ 0xC0 ∧
    gdev_compute_init gdev_50 W1 = (-EINVAL, W1) ∧
    (gdev_ctx_new P0 E_ok gdev_50 (vas_of gdev_50) W1).1 = none ∧
    (gdev_ctx_new P0 E_ok gdev_50 (vas_of gdev_50) W1).2.res = W1.res :=
  ⟨by decide,
   (unsupported_generation_rejected P0 E_ok gdev_c0 (vas_of gdev_c0) W1).2.1 (by decide),
   by decide,
   (unsupported_generation_rejected P0 E_ok gdev_50 (vas_of gdev_50) W1).2.2.1 (by decide),
   ((unsupported_generation_rejected P0 E_ok gdev_50 (vas_of gdev_50) W1).2.2.2 (by decide)).1,
   ((unsupported_generation_rejected P0 E_ok gdev_50 (vas_of gdev_50) W1).2.2.2 (by decide)).2.1⟩

/-- The paths of `gdev_info_query`.  It returns 0 exactly when the type is
`GDEV_QUERY_NVIDIA_MP_COUNT` and `(chipset & 0xf0) == 0xC0`; then it has called the
backend query once and `*result` holds the value field of the local request,
converted to `uint32_t`: the reported count when the query succeeded, the
content the request had before the call when the query failed.  In every other
case it returns `-EINVAL`, leaves `*result` as it was and calls nothing. -/
theorem gdev_info_query_paths (P : Params) (r : GetparamAnswer)
    (getparam : drm_pscnv_getparam) (gdev : gdev_device_t) (type result : Nat) (w : World) :
    ((gdev_info_query P r getparam gdev type result w).1 = 0 ↔
      (type = P.GDEV_QUERY_NVIDIA_MP_COUNT ∧ gdev.chipset &&& 0xf0 = 0xc0)) ∧
    ((type = P.GDEV_QUERY_NVIDIA_MP_COUNT ∧ gdev.chipset &&& 0xf0 = 0xc0) →
      gdev_info_query P r getparam gdev type result w =
        (0,
         (match r with
          | .value v => v
          | .invalidParameter => getparam.value
          | .unsupportedHardware => getparam.value) % 2 ^ 32,
         { res := w.res,
           log := w.log ++ [.pscnv_ioctl_getparam P.PSCNV_GETPARAM_MP_COUNT] })) ∧
    (¬ (type = P.GDEV_QUERY_NVIDIA_MP_COUNT ∧ gdev.chipset &&& 0xf0 = 0xc0) →
      gdev_info_query P r getparam gdev type result w = (-EINVAL, result, w)) := by
  by_cases ht : type = P.GDEV_QUERY_NVIDIA_MP_COUNT <;>
    by_cases hc : gdev.chipset &&& 0xf0 = 0xc0 <;>
    rcases r with v | _ | _ <;>
    simp [gdev_info_query, ht, hc, EINVAL, pscnv_ioctl_getparam, record]

/-- A page has at least one byte. -/
theorem PAGE_SIZE_pos (P : Params) : 0 < PAGE_SIZE P := by
  simp [PAGE_SIZE, Nat.shiftLeft_eq]

/-- Rounding up to whole pages does not go below the size. -/
theorem le_page_align (P : Params) (size : Nat) : size ≤ page_align P size := by
  unfold page_align
  have hpos := PAGE_SIZE_pos P
  have hdm := Nat.div_add_mod (size + PAGE_SIZE P - 1) (PAGE_SIZE P)
  have hlt := Nat.mod_lt (size + PAGE_SIZE P - 1) hpos
  rw [Nat.mul_comm] at hdm
  generalize (size + PAGE_SIZE P - 1) / PAGE_SIZE P * PAGE_SIZE P = q at hdm ⊢
  omega

/-- A size of at most one page rounds up to at most one page. -/
theorem page_align_le_page (P : Params) (size : Nat) (h : size ≤ PAGE_SIZE P) :
    page_align P size ≤ PAGE_SIZE P := by
  unfold page_align
  have hpos := PAGE_SIZE_pos P
  have hq : (size + PAGE_SIZE P - 1) / PAGE_SIZE P ≤ 1 := by
    apply Nat.le_of_lt_succ
    rw [Nat.div_lt_iff_lt_mul hpos]
    omega
  calc (size + PAGE_SIZE P - 1) / PAGE_SIZE P * PAGE_SIZE P
      ≤ 1 * PAGE_SIZE P := Nat.mul_le_mul_right _ hq
    _ = PAGE_SIZE P := Nat.one_mul _

/-- The paths of `__gdev_mem_alloc`: it returns `NULL` exactly when `kzalloc`,
the buffer allocation or the VAS mapping fails; otherwise it returns this
object and has made these calls, whatever the CPU mapping primitive answered. -/
theorem gdev_mem_alloc_paths (P : Params) (E : MemAnswers) (vas : gdev_vas_t)
    (size flags : Nat) (w : World) :
    ((__gdev_mem_alloc P E vas size flags w).1 = none ↔
      (E.mem = none ∨ E.bo = none ∨ E.mm = none)) ∧
    (__gdev_mem_alloc P E vas size flags w).2.1 = vas ∧
    ∀ p bo mm, E.mem = some p → E.bo = some bo → E.mm = some mm →
      __gdev_mem_alloc P E vas size flags w =
        (some { self := p, vas := vas, bo := bo, addr := mm,
                map := if flags &&& P.PSCNV_GEM_SYSRAM_SNOOP ≠ 0 then
                         (if PAGE_SIZE P < size then E.vmap else some E.kmap)
                       else none,
                list_entry := { members := [], container := some p } },
         vas,
         { res := { heap := p :: w.res.heap,
                    vspaces := w.res.vspaces,
                    chans := w.res.chans,
                    bos := bo.handle :: w.res.bos,
                    vas_maps := (vas.pvas, mm) :: w.res.vas_maps,
                    vmaps := if flags &&& P.PSCNV_GEM_SYSRAM_SNOOP ≠ 0 ∧ PAGE_SIZE P < size then
                               E.vmap.toList ++ w.res.vmaps else w.res.vmaps,
                    kmaps := if flags &&& P.PSCNV_GEM_SYSRAM_SNOOP ≠ 0 ∧ ¬ PAGE_SIZE P < size then
                               bo.pages :: w.res.kmaps else w.res.kmaps,
                    faults := w.res.faults },
           log := w.log ++
             ([.kzalloc, .pscnv_mem_alloc size flags, .pscnv_vspace_map vas.pvas bo.handle] ++
              if flags &&& P.PSCNV_GEM_SYSRAM_SNOOP ≠ 0 then
                (if PAGE_SIZE P < size then [.vmap bo.pages (bo.size >>> P.PAGE_SHIFT)]
                 else [.kmap bo.pages])
              else []) }) := by
  obtain ⟨m, b, mmo, vm, km⟩ := E
  obtain ⟨⟨heap, vspaces, chans, bos, vas_maps, vmaps, kmaps, faults⟩, log⟩ := w
  rcases m with _ | p
  · simp [__gdev_mem_alloc, kzalloc, record]
  rcases b with _ | bo
  · simp [__gdev_mem_alloc, kzalloc, kfree, pscnv_mem_alloc, record]
  rcases mmo with _ | mm
  · simp [__gdev_mem_alloc, kzalloc, kfree, pscnv_mem_alloc, pscnv_mem_free, pscnv_vspace_map,
      record]
  by_cases hf : flags &&& P.PSCNV_GEM_SYSRAM_SNOOP = 0
  · simp [__gdev_mem_alloc, kzalloc, pscnv_mem_alloc, pscnv_vspace_map, record, hf,
      __gdev_list_init]
  by_cases hs : PAGE_SIZE P < size
  · rcases vm with _ | vm <;>
      simp [__gdev_mem_alloc, kzalloc, pscnv_mem_alloc, pscnv_vspace_map, vmap, record, hf, hs,
        __gdev_list_init]
  · simp [__gdev_mem_alloc, kzalloc, pscnv_mem_alloc, pscnv_vspace_map, kmap, record, hf, hs,
      __gdev_list_init]

/-- The log after `kfree`. -/
theorem kfree_log (p : Nat) (w : World) : (kfree p w).log = w.log ++ [.kfree p] := by
  simp only [kfree, record]
  split <;> rfl

/-- The log after `pscnv_mem_free`. -/
theorem pscnv_mem_free_log (bo : pscnv_bo) (w : World) :
    (pscnv_mem_free bo w).log = w.log ++ [.pscnv_mem_free bo.handle] := by
  simp only [pscnv_mem_free, record]
  split <;> rfl

/-- The log after `pscnv_vspace_unmap`. -/
theorem pscnv_vspace_unmap_log (vspace addr : Nat) (w : World) :
    (pscnv_vspace_unmap vspace addr w).log = w.log ++ [.pscnv_vspace_unmap vspace addr] := by
  simp only [pscnv_vspace_unmap, record]
  split <;> rfl

/-- The log after `vunmap`. -/
theorem vunmap_log (addr : Option Nat) (w : World) :
    (vunmap addr w).log = w.log ++ [.vunmap addr] := by
  rcases addr with _ | a
  · rfl
  · simp only [vunmap, record]
    split <;> rfl

/-- The log after `kunmap`. -/
theorem kunmap_log (page : Nat) (w : World) :
    (kunmap page w).log = w.log ++ [.kunmap page] := by
  simp only [kunmap, record]
  split <;> rfl

/-- The calls of `__gdev_mem_free`: the CPU unmap chosen by `bo->size` when the
object has a CPU mapping, then the VAS unmap, the buffer free and `kfree`; and
the VAS object is left as it was. -/
theorem gdev_mem_free_paths (P : Params) (mem : gdev_mem_t) (w : World) :
    (__gdev_mem_free P mem w).1 = mem.vas ∧
    (__gdev_mem_free P mem w).2.log = w.log ++
      ((match mem.map with
        | some m => if PAGE_SIZE P < mem.bo.size then [Call.vunmap (some m)] else [Call.kunmap m]
        | none => []) ++
       [.pscnv_vspace_unmap mem.vas.pvas mem.addr, .pscnv_mem_free mem.bo.handle,
        .kfree mem.self]) := by
  refine ⟨rfl, ?_⟩
  simp only [__gdev_mem_free, kfree_log, pscnv_mem_free_log, pscnv_vspace_unmap_log]
  rcases mem.map with _ | m
  · simp
  · by_cases hs : PAGE_SIZE P < mem.bo.size
    · simp [hs, vunmap_log]
    · simp [hs, kunmap_log]

/-- A successful `__gdev_mem_alloc` had its three tested steps succeed. -/
theorem gdev_mem_alloc_some (P : Params) (E : MemAnswers) (vas : gdev_vas_t)
    (size flags : Nat) (w : World) (mem : gdev_mem_t) (vas1 : gdev_vas_t) (w1 : World)
    (h : __gdev_mem_alloc P E vas size flags w = (some mem, vas1, w1)) :
    ∃ p bo mm, E.mem = some p ∧ E.bo = some bo ∧ E.mm = some mm := by
  have hne : (__gdev_mem_alloc P E vas size flags w).1 ≠ none := by rw [h]; simp
  have hD := mt (gdev_mem_alloc_paths P E vas size flags w).1.2 hne
  simp only [not_or] at hD
  obtain ⟨h1, h2, h3⟩ := hD
  obtain ⟨p, hp⟩ := Option.ne_none_iff_exists'.1 h1
  obtain ⟨bo, hbo⟩ := Option.ne_none_iff_exists'.1 h2
  obtain ⟨mm, hmm⟩ := Option.ne_none_iff_exists'.1 h3
  exact ⟨p, bo, mm, hp, hbo, hmm⟩

/-- Counterexample to C6: a host-visible allocation of two pages succeeds with
`vmap` called and answering `NULL`; the backend recorded the size rounded up to
whole pages; the later free calls neither `vunmap` nor `kunmap`. -/
theorem gdev_free_dma_without_map_skips_vunmap :
    ∃ mem vas1 w1,
      gdev_malloc_dma P0 E_mem_vmap_fails (vas_of gdev_c0) 8192 World.empty = (some mem, vas1, w1) ∧
      mem.bo.size = page_align P0 8192 ∧
      w1.log = [.kzalloc, .pscnv_mem_alloc 8192 8, .pscnv_vspace_map 7 601, .vmap 6010 2] ∧
      (gdev_free_dma P0 mem w1).2.log =
        w1.log ++ [.pscnv_vspace_unmap 7 0x30000000, .pscnv_mem_free 601, .kfree 600] :=
  ⟨_, _, _, rfl, by decide, by decide, by decide⟩

/-- C6, amended. For every requested size `S` and every successful
host-visible allocation, `kmap` is called iff `S <= PAGE_SIZE` and `vmap` iff
`S > PAGE_SIZE`.  Assuming the backend records `bo->size` as `S` rounded up to
whole pages, the later free, run in any world, calls `kunmap` iff the
allocation called `kmap` and `vunmap` iff it called `vmap`, provided the object
has a CPU mapping (`mem->map` is not `NULL`); when `mem->map` is `NULL` it calls
neither. -/
theorem gdev_dma_mapping_symmetric (P : Params) (E : MemAnswers) (vas : gdev_vas_t)
    (size : Nat) (w : World) (mem : gdev_mem_t) (vas1 : gdev_vas_t) (w1 w2 : World)
    (h : gdev_malloc_dma P E vas size w = (some mem, vas1, w1))
    (hflag : P.PSCNV_GEM_SYSRAM_SNOOP ≠ 0)
    (hsize : mem.bo.size = page_align P size) :
    ∃ evsA evsF, w1.log = w.log ++ evsA ∧ (gdev_free_dma P mem w2).2.log = w2.log ++ evsF ∧
      (evsA.any Call.isKmap = true ↔ size ≤ PAGE_SIZE P) ∧
      (evsA.any Call.isVmap = true ↔ PAGE_SIZE P < size) ∧
      (mem.map ≠ none →
        (evsF.any Call.isKunmap = true ↔ evsA.any Call.isKmap = true) ∧
        (evsF.any Call.isVunmap = true ↔ evsA.any Call.isVmap = true)) ∧
      (mem.map = none →
        evsF.any Call.isKunmap = false ∧ evsF.any Call.isVunmap = false) := by
  unfold gdev_malloc_dma at h
  obtain ⟨p, bo, mm, h1, h2, h3⟩ := gdev_mem_alloc_some P E vas size _ w mem vas1 w1 h
  rw [(gdev_mem_alloc_paths P E vas size _ w).2.2 p bo mm h1 h2 h3] at h
  have hf : P.PSCNV_GEM_SYSRAM_SNOOP &&& P.PSCNV_GEM_SYSRAM_SNOOP ≠ 0 := by
    rw [Nat.and_self]; exact hflag
  simp only [hf, ne_eq, not_false_eq_true, if_true, true_and, Prod.mk.injEq,
    Option.some.injEq] at h
  obtain ⟨rfl, rfl, rfl⟩ := h
  simp only at hsize
  refine ⟨_, _, rfl, (gdev_mem_free_paths P _ w2).2, ?_⟩
  by_cases hs : PAGE_SIZE P < size
  · have hb : PAGE_SIZE P < bo.size := by
      rw [hsize]; exact lt_of_lt_of_le hs (le_page_align P size)
    rcases E.vmap with _ | vm <;>
      simp [hs, hb, Call.isKmap, Call.isVmap, Call.isKunmap, Call.isVunmap]
  · have hb : ¬ PAGE_SIZE P < bo.size := by
      rw [hsize]; exact Nat.not_lt.2 (page_align_le_page P size (Nat.not_lt.1 hs))
    simp [hs, hb, Call.isKmap, Call.isVmap, Call.isKunmap, Call.isVunmap, Nat.not_lt.1 hs]

/-- Witness of C6, amended: two pages, with `vmap` succeeding. -/
theorem gdev_dma_mapping_symmetric_witness :
    ∃ mem vas1 w1,
      gdev_malloc_dma P0 E_mem_ok (vas_of gdev_c0) 8192 W1 = (some mem, vas1, w1) ∧
      P0.PSCNV_GEM_SYSRAM_SNOOP ≠ 0 ∧ mem.bo.size = page_align P0 8192 ∧ mem.map ≠ none ∧
      ∃ evsA evsF, w1.log = W1.log ++ evsA ∧
        (gdev_free_dma P0 mem W1).2.log = W1.log ++ evsF ∧
        (evsF.any Call.isVunmap = true ↔ evsA.any Call.isVmap = true) := by
  refine ⟨_, _, _, rfl, by decide, by decide, by decide, ?_⟩
  obtain ⟨evsA, evsF, hA, hF, _, _, hmap, _⟩ :=
    gdev_dma_mapping_symmetric P0 E_mem_ok (vas_of gdev_c0) 8192 W1 _ _ _ W1 rfl
      (by decide) (by decide)
  exact ⟨evsA, evsF, hA, hF, (hmap (by decide)).2⟩

/-- Counterexample to C8: a host-visible allocation of two pages in which the
buffer allocation and the VAS mapping succeed and `vmap` returns `NULL`:
`__gdev_mem_alloc` returns a memory object whose `map` is `NULL`, and the buffer
is still allocated and mapped into the VAS. -/
theorem gdev_malloc_dma_vmap_null_returns_object :
    gdev_malloc_dma P0 E_mem_vmap_fails (vas_of gdev_c0) 8192 World.empty =
      (some { self := 600, vas := vas_of gdev_c0, bo := ⟨601, 8192, 6010⟩, addr := 0x30000000,
              map := none, list_entry := { members := [], container := some 600 } },
       vas_of gdev_c0,
       { res := { heap := [600], vspaces := [], chans := [], bos := [601],
                  vas_maps := [(7, 0x30000000)], vmaps := [], kmaps := [], faults := 0 },
         log := [.kzalloc, .pscnv_mem_alloc 8192 8, .pscnv_vspace_map 7 601, .vmap 6010 2] }) := by
  decide

/-- C8, amended. For every host-visible allocation (flags containing
`PSCNV_GEM_SYSRAM_SNOOP`) in which the buffer allocation and the VAS mapping
succeed, `__gdev_mem_alloc` returns the memory object whatever the CPU-mapping
primitive answers, and `mem->map` is that answer: it is `NULL` exactly when the
size exceeds a page and `vmap` failed.  Nothing is rolled back: the buffer stays
allocated and mapped into the VAS, and the calls made are the three
acquisitions and the one mapping primitive. -/
theorem gdev_mem_alloc_host_visible (P : Params) (E : MemAnswers) (vas : gdev_vas_t)
    (size flags : Nat) (w : World) (p : Nat) (bo : pscnv_bo) (mm : Nat)
    (hflags : flags &&& P.PSCNV_GEM_SYSRAM_SNOOP ≠ 0)
    (h1 : E.mem = some p) (h2 : E.bo = some bo) (h3 : E.mm = some mm) :
    ∃ mem w1, __gdev_mem_alloc P E vas size flags w = (some mem, vas, w1) ∧
      mem.map = (if PAGE_SIZE P < size then E.vmap else some E.kmap) ∧
      (mem.map = none ↔ PAGE_SIZE P < size ∧ E.vmap = none) ∧
      w1.res.bos = bo.handle :: w.res.bos ∧
      w1.res.vas_maps = (vas.pvas, mm) :: w.res.vas_maps ∧
      w1.log = w.log ++
        [.kzalloc, .pscnv_mem_alloc size flags, .pscnv_vspace_map vas.pvas bo.handle,
         if PAGE_SIZE P < size then .vmap bo.pages (bo.size >>> P.PAGE_SHIFT)
         else .kmap bo.pages] := by
  refine ⟨_, _, (gdev_mem_alloc_paths P E vas size flags w).2.2 p bo mm h1 h2 h3, ?_⟩
  by_cases hs : PAGE_SIZE P < size <;> simp [hflags, hs]

/-- Witness of C8, amended: two pages, `vmap` returns `NULL`. -/
theorem gdev_mem_alloc_host_visible_witness :
    P0.PSCNV_GEM_SYSRAM_SNOOP &&& P0.PSCNV_GEM_SYSRAM_SNOOP ≠ 0 ∧
    ∃ mem w1,
      __gdev_mem_alloc P0 E_mem_vmap_fails (vas_of gdev_c0) 8192 P0.PSCNV_GEM_SYSRAM_SNOOP W1 =
        (some mem, vas_of gdev_c0, w1) ∧
      (mem.map = none ↔ PAGE_SIZE P0 < 8192 ∧ E_mem_vmap_fails.vmap = none) ∧
      w1.res.bos = 601 :: W1.res.bos := by
  refine ⟨by decide, ?_⟩
  obtain ⟨mem, w1, h, _, hnone, hbos, _, _⟩ :=
    gdev_mem_alloc_host_visible P0 E_mem_vmap_fails (vas_of gdev_c0) 8192
      P0.PSCNV_GEM_SYSRAM_SNOOP W1 600 ⟨601, 8192, 6010⟩ 0x30000000 (by decide) rfl rfl rfl
  exact ⟨mem, w1, h, hnone, hbos⟩

/-- Counterexample to C9: on a VAS fresh from `gdev_vas_new`, a device memory
allocation succeeds and the object returned is not an element of the
collection `vas->memlist`, which is still empty. -/
theorem gdev_malloc_device_not_linked :
    ∃ vas w0 mem vas1 w1,
      gdev_vas_new E_vas_ok gdev_c0 0x40000000 World.empty = (some vas, w0) ∧
      gdev_malloc_device P0 E_mem_ok vas 8192 w0 = (some mem, vas1, w1) ∧
      mem.self ∉ vas1.memlist.members ∧ vas1.memlist.members = [] :=
  ⟨_, _, _, _, _, rfl, rfl, by decide, by decide⟩

/-- C9, amended. The allocator does not touch the collection: after every
call of `__gdev_mem_alloc` (so of `gdev_malloc_device` and `gdev_malloc_dma`),
successful or failed, the VAS object and its `memlist` are as before; a returned
object refers to that VAS and has its own list entry initialised, linked to
nothing, with the object as container; and the matching free leaves the VAS
object and its `memlist` as they were.  So the object is an element of the
collection after the allocation or after the free only if it was one before. -/
theorem gdev_mem_alloc_free_memlist (P : Params) (E : MemAnswers) (vas : gdev_vas_t)
    (size flags : Nat) (w : World) :
    (__gdev_mem_alloc P E vas size flags w).2.1 = vas ∧
    ∀ mem, (__gdev_mem_alloc P E vas size flags w).1 = some mem →
      mem.vas = vas ∧
      mem.list_entry = { members := [], container := some mem.self } ∧
      (mem.self ∈ (__gdev_mem_alloc P E vas size flags w).2.1.memlist.members ↔
        mem.self ∈ vas.memlist.members) ∧
      ∀ w2, (__gdev_mem_free P mem w2).1 = vas := by
  refine ⟨(gdev_mem_alloc_paths P E vas size flags w).2.1, ?_⟩
  intro mem hmem
  obtain ⟨p, bo, mm, h1, h2, h3⟩ :=
    gdev_mem_alloc_some P E vas size flags w mem _ _ (Prod.ext hmem rfl)
  have heq := (gdev_mem_alloc_paths P E vas size flags w).2.2 p bo mm h1 h2 h3
  rw [heq] at hmem ⊢
  obtain rfl := Option.some.inj hmem
  exact ⟨rfl, rfl, Iff.rfl, fun w2 => rfl⟩

/-- Witness of C9, amended: a successful device memory allocation on a VAS
with an empty collection. -/
theorem gdev_mem_alloc_free_memlist_witness :
    ∃ mem,
      (gdev_malloc_device P0 E_mem_ok (vas_of gdev_c0) 8192 W1).1 = some mem ∧
      (gdev_malloc_device P0 E_mem_ok (vas_of gdev_c0) 8192 W1).2.1 = vas_of gdev_c0 ∧
      mem.list_entry = { members := [], container := some mem.self } ∧
      (gdev_free_device P0 mem W1).1 = vas_of gdev_c0 := by
  have h := gdev_mem_alloc_free_memlist P0 E_mem_ok (vas_of gdev_c0) 8192
    P0.PSCNV_GEM_VRAM_SMALL W1
  refine ⟨_, rfl, h.1, ?_, ?_⟩
  · exact (h.2 _ rfl).2.1
  · exact (h.2 _ rfl).2.2.2 W1

end Gdev
